import Mathlib

/-!
Verification of `widget/simple_widget.go` (package `widget`): a shallow
embedding of the `SimpleWidgetBase` delegation shim and proofs of its
observable contract.

Modelling choices:
* The widget state is the delegate reference (`impl`, an `Option Delegate`)
  plus an object identity `selfId` for the base itself.  The `sync.RWMutex`
  (`propertyLock`) guards single reads/writes of `impl`; in this sequential
  embedding those guarded accesses are atomic and the internal lock emits no
  observable events.  The caller-supplied `sync.Locker` of `SetStateSafe` is
  observable and is traced.
* Side effects are traced as a `List Event`: forwarding to the host
  `widget.BaseWidget.ExtendBaseWidget`, storing the delegate, acquiring and
  releasing the caller's lock, invoking a state mutator, triggering `Refresh`
  on a resolved widget, and invoking `Render` on a resolved widget.
* A state-mutating callback is a function `σ → Option σ`; `none` models a
  Go panic inside the callback, which propagates (an `Outcome` with
  `result = none`) and cuts the trace at the point of the panic.
* `fyne.Size` holds two numeric components (float32 in the host toolkit);
  the layout callbacks verified here never read them, so integer components
  suffice.  `fyne.CanvasObject` values are opaque and identified by a code.
-/

namespace FyneX

/-- fyne.Size: a width/height pair.  The host stores float32 components; the
layout callbacks under verification never inspect them, so integers suffice. -/
structure Size where
  width : Int
  height : Int
  deriving DecidableEq, Repr

/-- fyne.CanvasObject: an opaque child visual object, identified by a code. -/
abbrev CanvasObject := Nat

/-- Observable effects of the shim, in program order. -/
inductive Event where
  /-- the call `s.BaseWidget.ExtendBaseWidget(wid)` forwarding `wid` to the
  host toolkit's base widget -/
  | hostExtend (widId : Nat)
  /-- the write `s.impl = wid` storing the delegate reference -/
  | storeImpl (widId : Nat)
  /-- `m.Lock()` on the caller-supplied locker of `SetStateSafe` -/
  | lockAcq
  /-- `m.Unlock()` on the caller-supplied locker of `SetStateSafe` -/
  | lockRel
  /-- invocation of a caller-supplied state-mutating callback `setState()` -/
  | mutate
  /-- `Refresh()` triggered on the resolved widget with identity `targetId` -/
  | refresh (targetId : Nat)
  /-- `Render()` invoked on the resolved widget with identity `targetId` -/
  | renderCall (targetId : Nat)
  deriving DecidableEq, Repr

/-- Is this event a refresh notification? -/
def Event.isRefresh : Event → Bool
  | .refresh _ => true
  | _ => false

/-- Is this event a forwarding to the host base widget? -/
def Event.isHostExtend : Event → Bool
  | .hostExtend _ => true
  | _ => false

/-- Is this event a `Render` invocation? -/
def Event.isRenderCall : Event → Bool
  | .renderCall _ => true
  | _ => false

/-- Is this event an operation on the caller-supplied lock? -/
def Event.isLockOp : Event → Bool
  | .lockAcq => true
  | .lockRel => true
  | _ => false

/-- A registered delegate: a concrete widget satisfying the `SimpleWidget`
interface.  `id` is its object identity; `renderObjs` and `renderLayout` are
the objects and layout callback its `Render` method produces (the callback's
effects are returned as events). -/
structure Delegate where
  id : Nat
  renderObjs : List CanvasObject
  renderLayout : Size → List Event

/-- `SimpleWidgetBase` (lines 37-42): embeds the host `widget.BaseWidget`
(modelled by the identity `selfId` of this base object) and stores the
delegate reference `impl`, guarded by `propertyLock` (atomic here). -/
structure SimpleWidgetBase where
  selfId : Nat
  impl : Option Delegate

/-- The `SimpleWidget` capability set (lines 14-18): `fyne.Widget`, i.e. the
`fyne.CanvasObject` methods plus `CreateRenderer`, together with `Render`. -/
inductive Capability where
  | render | createRenderer | minSize | move | position | resize | size
  | hide | visible | show | refresh
  deriving DecidableEq, BEq, Repr

/-- The methods an implementation of `SimpleWidget` must provide. -/
def simpleWidgetCapabilities : List Capability :=
  [.render, .createRenderer, .minSize, .move, .position, .resize, .size,
   .hide, .visible, .show, .refresh]

/-- The method set of `*SimpleWidgetBase`, the dynamic type boxed at the type
assertion in `super` (lines 102-103): `Render` (line 51) and `CreateRenderer`
(line 59) are declared in `simple_widget.go` itself, and the remaining
`fyne.CanvasObject` methods (size, position, visibility, refresh) are promoted
from the embedded host `widget.BaseWidget`, which the spec's external-interface
section records as providing refresh, size-change notification and the
lifecycle methods. -/
def simpleWidgetBaseMethodSet : List Capability :=
  [.render, .createRenderer, .minSize, .move, .position, .resize, .size,
   .hide, .visible, .show, .refresh]

/-- Whether the dynamic type at the assertion `x.(SimpleWidget)` in `super`
(`*SimpleWidgetBase`) satisfies the `SimpleWidget` capability set. -/
def baseSatisfiesSimpleWidget : Bool :=
  simpleWidgetCapabilities.all (fun c => simpleWidgetBaseMethodSet.contains c)

/-- The value `super()` resolves to: the registered delegate, or the
type-asserted base object itself. -/
inductive Resolved where
  | delegate (d : Delegate)
  | selfAsserted (selfId : Nat)

/-- Object identity of a resolved widget, used as the target of `Refresh`
and `Render` calls. -/
def Resolved.targetId : Resolved → Nat
  | .delegate d => d.id
  | .selfAsserted i => i

/-- Default `Render` body (lines 51-53): `return nil, func(fyne.Size) {}` —
nil objects and a layout callback with an empty body (no effects). -/
def RenderDefault : List CanvasObject × (Size → List Event) :=
  ([], fun _ => [])

/-- `SimpleWidgetBase.Render` (lines 51-53): the default implementation,
meant to be overwritten by concrete widgets. -/
def SimpleWidgetBase.Render (_ : SimpleWidgetBase) :
    List CanvasObject × (Size → List Event) :=
  RenderDefault

/-- Dynamic dispatch of `wdgt.Render()` on a resolved widget: a registered
delegate uses its own method; the type-asserted base (dynamic type
`*SimpleWidgetBase` — Go embedding gives no access to an outer type) reaches
the default `Render` of lines 51-53. -/
def Resolved.render : Resolved → List CanvasObject × (Size → List Event)
  | .delegate d => (d.renderObjs, d.renderLayout)
  | .selfAsserted _ => RenderDefault

/-- `getImpl` (lines 108-117): reads `s.impl` under the shared lock and
returns nil when it is nil, the reference otherwise. -/
def SimpleWidgetBase.getImpl (s : SimpleWidgetBase) : Option Delegate :=
  let impl := s.impl
  match impl with
  | none => none
  | some d => some d

/-- The type assertion `x.(SimpleWidget)` on the boxed base (lines 102-103):
succeeds with the self-reference when `*SimpleWidgetBase` satisfies the
capability set, faults (a runtime panic, modelled as `Except.error`)
otherwise. -/
def typeAssertSelf (selfId : Nat) : Except Unit Resolved :=
  if baseSatisfiesSimpleWidget then Except.ok (Resolved.selfAsserted selfId)
  else Except.error ()

/-- `super` (lines 99-106): returns the registered delegate, or the
type-asserted self-reference when none is registered. -/
def SimpleWidgetBase.super (s : SimpleWidgetBase) : Except Unit Resolved :=
  match s.getImpl with
  | none => typeAssertSelf s.selfId
  | some impl => Except.ok (Resolved.delegate impl)

/-- `ExtendBaseWidget` (lines 86-97): returns unchanged if a delegate is
already registered; otherwise forwards `wid` to the host
`BaseWidget.ExtendBaseWidget`, then stores `wid` under the exclusive lock.
Returns the new state and the trace of effects. -/
def SimpleWidgetBase.ExtendBaseWidget (s : SimpleWidgetBase) (wid : Delegate) :
    SimpleWidgetBase × List Event :=
  match s.getImpl with
  | some _ => (s, [])
  | none =>
      (⟨s.selfId, some wid⟩, [Event.hostExtend wid.id, Event.storeImpl wid.id])

/-- Result of an operation that runs a caller-supplied callback: `result` is
`none` when a panic propagated out of the operation, and `events` is the
trace of effects emitted before the operation returned or the panic cut it
short. -/
structure Outcome (σ : Type) where
  result : Option σ
  events : List Event

/-- `SetState` (lines 68-71): invokes the mutator, then triggers `Refresh` on
the resolved widget.  A panic in the mutator (or in `super`) propagates with
no refresh.  No locking is performed. -/
def SimpleWidgetBase.SetState {σ : Type} (s : SimpleWidgetBase)
    (setState : σ → Option σ) (st : σ) : Outcome σ :=
  match setState st with
  | none => ⟨none, [Event.mutate]⟩
  | some st' =>
      match s.super with
      | Except.error _ => ⟨none, [Event.mutate]⟩
      | Except.ok w => ⟨some st', [Event.mutate, Event.refresh w.targetId]⟩

/-- `SetStateSafe` (lines 77-83): acquires the caller's lock, invokes the
mutator, releases the lock, then triggers `Refresh` on the resolved widget.
There is no deferred unlock: a panic in the mutator propagates with the lock
still held and no refresh. -/
def SimpleWidgetBase.SetStateSafe {σ : Type} (s : SimpleWidgetBase)
    (setState : σ → Option σ) (st : σ) : Outcome σ :=
  match setState st with
  | none => ⟨none, [Event.lockAcq, Event.mutate]⟩
  | some st' =>
      match s.super with
      | Except.error _ => ⟨none, [Event.lockAcq, Event.mutate, Event.lockRel]⟩
      | Except.ok w =>
          ⟨some st',
           [Event.lockAcq, Event.mutate, Event.lockRel,
            Event.refresh w.targetId]⟩

/-- The host-toolkit renderer: wraps the resolved widget, its child objects
and its layout callback. -/
structure SimpleRenderer where
  wdgt : Resolved
  objects : List CanvasObject
  layout : Size → List Event

/-- Modelled from the spec: `newSimpleRenderer` lives in a repository file
that is not under `src/` (only its call site in `CreateRenderer` is).  The
spec describes `buildRenderer` as constructing "a host-toolkit renderer
wrapping the returned objects and resize callback", with no independent
logic, so the constructor stores its three arguments unchanged. -/
def newSimpleRenderer (w : Resolved) (objs : List CanvasObject)
    (layout : Size → List Event) : SimpleRenderer :=
  ⟨w, objs, layout⟩

/-- `CreateRenderer` (lines 59-64): resolves the widget via `super`, invokes
its `Render`, and wraps widget, objects and layout in a `simpleRenderer`.
A fault in `super` propagates (`none`). -/
def SimpleWidgetBase.CreateRenderer (s : SimpleWidgetBase) :
    Option SimpleRenderer × List Event :=
  match s.super with
  | Except.error _ => (none, [])
  | Except.ok wdgt =>
      let r := wdgt.render
      (some (newSimpleRenderer wdgt r.1 r.2), [Event.renderCall wdgt.targetId])

/-- Resolution as a total function: delegate if registered, else the base
itself.  `super_eq_resolve` shows `super` always succeeds with this value. -/
def resolve (s : SimpleWidgetBase) : Resolved :=
  match s.impl with
  | some d => Resolved.delegate d
  | none => Resolved.selfAsserted s.selfId

/- Concrete objects used by witnesses. -/

/-- A concrete delegate with one canvas object. -/
def dA : Delegate := ⟨1, [10], fun _ => []⟩

/-- A second, different concrete delegate. -/
def dB : Delegate := ⟨2, [], fun _ => []⟩

/-- A freshly constructed base: no delegate registered. -/
def base0 : SimpleWidgetBase := ⟨0, none⟩

/- Helper lemmas shared by the claim theorems. -/

/-- The capability check at the type assertion succeeds. -/
theorem baseSatisfies_eq_true : baseSatisfiesSimpleWidget = true := by
  decide

/-- `getImpl` returns exactly the stored reference. -/
theorem getImpl_eq (s : SimpleWidgetBase) : s.getImpl = s.impl := by
  unfold SimpleWidgetBase.getImpl
  cases s.impl <;> rfl

/-- `super` never faults and returns the resolution of the state. -/
theorem super_eq_resolve (s : SimpleWidgetBase) :
    s.super = Except.ok (resolve s) := by
  unfold SimpleWidgetBase.super resolve typeAssertSelf
  rw [getImpl_eq]
  cases s.impl <;> simp [baseSatisfies_eq_true]

/- Claim theorems. -/

/-- C1: once a delegate `d` has been stored by a first `ExtendBaseWidget`
call, the reference is immutable: the first call on an empty base stores `d`,
and any subsequent `ExtendBaseWidget d2` on a state holding `d` returns the
state unchanged with an empty effect trace, while `super` still returns `d`. -/
theorem extendBaseWidget_first_writer_wins (s : SimpleWidgetBase)
    (d d2 : Delegate) (h : s.impl = none) :
    (s.ExtendBaseWidget d).1.impl = some d ∧
    (∀ s' : SimpleWidgetBase, s'.impl = some d →
      s'.ExtendBaseWidget d2 = (s', []) ∧
      s'.super = Except.ok (Resolved.delegate d)) := by
  refine ⟨?_, fun s' h' => ⟨?_, ?_⟩⟩
  · simp [SimpleWidgetBase.ExtendBaseWidget, getImpl_eq, h]
  · simp [SimpleWidgetBase.ExtendBaseWidget, getImpl_eq, h']
  · simp [SimpleWidgetBase.super, getImpl_eq, h']

/-- C1 witness: the invariant at the concrete base `base0` with delegates
`dA` and `dB`. -/
theorem extendBaseWidget_first_writer_wins_witness :
    (base0.ExtendBaseWidget dA).1.impl = some dA ∧
    (base0.ExtendBaseWidget dA).1.ExtendBaseWidget dB =
      ((base0.ExtendBaseWidget dA).1, []) ∧
    (base0.ExtendBaseWidget dA).1.super = Except.ok (Resolved.delegate dA) :=
  have h := extendBaseWidget_first_writer_wins base0 dA dB rfl
  ⟨h.1, (h.2 _ h.1).1, (h.2 _ h.1).2⟩

/-- C2: `super` returns the registered delegate when one is set; with none
set it returns the type-asserted self-reference (usable, since the concrete
type `*SimpleWidgetBase` satisfies the capability set). -/
theorem super_returns_delegate_or_self (s : SimpleWidgetBase) :
    (∀ d, s.impl = some d → s.super = Except.ok (Resolved.delegate d)) ∧
    (s.impl = none →
      s.super = Except.ok (Resolved.selfAsserted s.selfId)) := by
  constructor
  · intro d hd
    simp [SimpleWidgetBase.super, getImpl_eq, hd]
  · intro h
    simp [SimpleWidgetBase.super, getImpl_eq, h, typeAssertSelf,
      baseSatisfies_eq_true]

/-- C2 witness: both branches at concrete states. -/
theorem super_returns_delegate_or_self_witness :
    SimpleWidgetBase.super ⟨0, some dA⟩ = Except.ok (Resolved.delegate dA) ∧
    base0.super = Except.ok (Resolved.selfAsserted 0) :=
  ⟨(super_returns_delegate_or_self ⟨0, some dA⟩).1 dA rfl,
   (super_returns_delegate_or_self base0).2 rfl⟩

/-- C3 counterexample: the claimed failing execution does not exist — there
is no widget state with no registered delegate on which `super` faults at
the type assertion, because the boxed dynamic type is always
`*SimpleWidgetBase`, which satisfies `SimpleWidget`. -/
theorem super_assert_never_faults :
    ¬ ∃ s : SimpleWidgetBase,
        s.getImpl = none ∧ s.super = Except.error () := by
  rintro ⟨s, -, h2⟩
  rw [super_eq_resolve] at h2
  exact Except.noConfusion h2

/-- C3 amended: resolving with no registered delegate never faults: the type
assertion targets the embedded base itself, whose concrete type
`*SimpleWidgetBase` satisfies the `SimpleWidget` capability set (`Render` and
`CreateRenderer` are declared on it and the host `widget.BaseWidget` supplies
the remaining methods), so `super` returns the type-asserted base. -/
theorem super_unregistered_selfAssert (s : SimpleWidgetBase)
    (h : s.impl = none) :
    baseSatisfiesSimpleWidget = true ∧
    s.super = Except.ok (Resolved.selfAsserted s.selfId) := by
  refine ⟨baseSatisfies_eq_true, ?_⟩
  rw [super_eq_resolve]
  simp [resolve, h]

/-- C3 amended witness: at the fresh base. -/
theorem super_unregistered_selfAssert_witness :
    baseSatisfiesSimpleWidget = true ∧
    base0.super = Except.ok (Resolved.selfAsserted 0) :=
  super_unregistered_selfAssert base0 rfl

/-- C4: the default `Render` returns an empty object sequence together with a
layout callback that performs no action when invoked with any size. -/
theorem render_default_noop (s : SimpleWidgetBase) (sz : Size) :
    (s.Render).1 = [] ∧ (s.Render).2 sz = [] :=
  ⟨rfl, rfl⟩

/-- Caller-lock depth of a trace: acquisitions minus releases.  A refresh
fires "while the lock is held" exactly when the depth of the trace before it
is positive. -/
def lockDepth (tr : List Event) : Int :=
  (tr.countP (fun e => e == Event.lockAcq) : Int) -
    (tr.countP (fun e => e == Event.lockRel) : Int)

/-- C5: `SetState f` invokes `f` and then triggers exactly one refresh on the
resolved delegate, after `f` has completed, whatever state `f` mutates; the
trace contains no operation on a caller-supplied lock. -/
theorem setState_refreshes_once {σ : Type} (s : SimpleWidgetBase)
    (f : σ → Option σ) (st st' : σ) (h : f st = some st') :
    s.SetState f st =
      ⟨some st', [Event.mutate, Event.refresh (resolve s).targetId]⟩ ∧
    (s.SetState f st).events.countP Event.isRefresh = 1 ∧
    (s.SetState f st).events.countP Event.isLockOp = 0 := by
  have hmain : s.SetState f st =
      ⟨some st', [Event.mutate, Event.refresh (resolve s).targetId]⟩ := by
    simp [SimpleWidgetBase.SetState, h, super_eq_resolve]
  refine ⟨hmain, ?_, ?_⟩ <;>
    simp [hmain, List.countP_cons, Event.isRefresh, Event.isLockOp]

/-- C5 witness: a concrete mutator on `Nat` state. -/
theorem setState_refreshes_once_witness :
    base0.SetState (fun n : Nat => some (n + 1)) 0 =
      ⟨some 1, [Event.mutate, Event.refresh (resolve base0).targetId]⟩ ∧
    (base0.SetState (fun n : Nat => some (n + 1)) 0).events.countP
      Event.isRefresh = 1 ∧
    (base0.SetState (fun n : Nat => some (n + 1)) 0).events.countP
      Event.isLockOp = 0 :=
  setState_refreshes_once base0 (fun n : Nat => some (n + 1)) 0 1 rfl

/-- C6: `SetStateSafe m f` performs exactly the sequence acquire, invoke `f`,
release, then one refresh on the resolved delegate; at every refresh event of
the trace the caller's lock has been released (depth of the preceding prefix
is zero), so the refresh never fires while the lock is held. -/
theorem setStateSafe_sequence {σ : Type} (s : SimpleWidgetBase)
    (f : σ → Option σ) (st st' : σ) (h : f st = some st') :
    s.SetStateSafe f st =
      ⟨some st',
       [Event.lockAcq, Event.mutate, Event.lockRel,
        Event.refresh (resolve s).targetId]⟩ ∧
    (∀ pre t post,
      (s.SetStateSafe f st).events = pre ++ Event.refresh t :: post →
      lockDepth pre = 0) := by
  have hmain : s.SetStateSafe f st =
      ⟨some st',
       [Event.lockAcq, Event.mutate, Event.lockRel,
        Event.refresh (resolve s).targetId]⟩ := by
    simp [SimpleWidgetBase.SetStateSafe, h, super_eq_resolve]
  refine ⟨hmain, ?_⟩
  intro pre t post hp
  rw [hmain] at hp
  simp only [Outcome.mk.injEq] at hp
  rcases pre with _ | ⟨e1, _ | ⟨e2, _ | ⟨e3, _ | ⟨e4, rest⟩⟩⟩⟩
  · simp at hp
  · simp at hp
  · simp at hp
  · obtain ⟨h1, h2, h3, -, -⟩ := by simpa using hp
    subst h1 h2 h3
    decide
  · simp at hp

/-- C6 witness: the exact sequence at a concrete state and mutator. -/
theorem setStateSafe_sequence_witness :
    base0.SetStateSafe (fun n : Nat => some (n + 1)) 0 =
      ⟨some 1,
       [Event.lockAcq, Event.mutate, Event.lockRel,
        Event.refresh (resolve base0).targetId]⟩ ∧
    (∀ pre t post,
      (base0.SetStateSafe (fun n : Nat => some (n + 1)) 0).events =
        pre ++ Event.refresh t :: post →
      lockDepth pre = 0) :=
  setStateSafe_sequence base0 (fun n : Nat => some (n + 1)) 0 1 rfl

/-- C7: `CreateRenderer` is pure delegation: it resolves the widget via
`super`, invokes that widget's `Render` exactly once (one render-call event
in the trace), and returns the renderer wrapping exactly the object list and
layout callback that `Render` call produced, unmodified. -/
theorem createRenderer_pure_delegation (s : SimpleWidgetBase) :
    s.CreateRenderer =
      (some (newSimpleRenderer (resolve s) (resolve s).render.1
        (resolve s).render.2),
       [Event.renderCall (resolve s).targetId]) ∧
    (s.CreateRenderer).2.countP Event.isRenderCall = 1 := by
  have hmain : s.CreateRenderer =
      (some (newSimpleRenderer (resolve s) (resolve s).render.1
        (resolve s).render.2),
       [Event.renderCall (resolve s).targetId]) := by
    simp [SimpleWidgetBase.CreateRenderer, super_eq_resolve]
  exact ⟨hmain, by simp [hmain, List.countP_cons, Event.isRenderCall]⟩

/-- C8: on a first registration the shim forwards `wid` to the host
`BaseWidget.ExtendBaseWidget` exactly once, before storing `wid` as the
delegate (host-extend precedes store in the trace); a later call with the
delegate already set performs no host call at all, so the host base sees at
most one registration, with the same delegate the shim stores. -/
theorem extendBaseWidget_host_forward (s : SimpleWidgetBase)
    (wid wid2 : Delegate) (h : s.impl = none) :
    (s.ExtendBaseWidget wid).2 =
      [Event.hostExtend wid.id, Event.storeImpl wid.id] ∧
    (s.ExtendBaseWidget wid).1.impl = some wid ∧
    (s.ExtendBaseWidget wid).2.countP Event.isHostExtend = 1 ∧
    ((s.ExtendBaseWidget wid).1.ExtendBaseWidget wid2).2.countP
      Event.isHostExtend = 0 := by
  have hfst : s.ExtendBaseWidget wid =
      (⟨s.selfId, some wid⟩,
       [Event.hostExtend wid.id, Event.storeImpl wid.id]) := by
    simp [SimpleWidgetBase.ExtendBaseWidget, getImpl_eq, h]
  refine ⟨by simp [hfst], by simp [hfst], ?_, ?_⟩
  · simp [hfst, List.countP_cons, Event.isHostExtend]
  · rw [hfst]
    rfl

/-- C8 witness: a first and a second registration at the concrete base. -/
theorem extendBaseWidget_host_forward_witness :
    (base0.ExtendBaseWidget dA).2 =
      [Event.hostExtend dA.id, Event.storeImpl dA.id] ∧
    (base0.ExtendBaseWidget dA).1.impl = some dA ∧
    (base0.ExtendBaseWidget dA).2.countP Event.isHostExtend = 1 ∧
    ((base0.ExtendBaseWidget dA).1.ExtendBaseWidget dB).2.countP
      Event.isHostExtend = 0 :=
  extendBaseWidget_host_forward base0 dA dB rfl

/-- C9: when the mutator panics, `SetStateSafe` does not release the caller's
lock (no release event — there is no deferred unlock) and triggers no
refresh; `SetState` likewise triggers no refresh when the mutator panics. -/
theorem setState_panic_no_refresh {σ : Type} (s : SimpleWidgetBase)
    (f : σ → Option σ) (st : σ) (h : f st = none) :
    s.SetStateSafe f st = ⟨none, [Event.lockAcq, Event.mutate]⟩ ∧
    Event.lockRel ∉ (s.SetStateSafe f st).events ∧
    (s.SetStateSafe f st).events.countP Event.isRefresh = 0 ∧
    s.SetState f st = ⟨none, [Event.mutate]⟩ ∧
    (s.SetState f st).events.countP Event.isRefresh = 0 := by
  have hsafe : s.SetStateSafe f st =
      ⟨none, [Event.lockAcq, Event.mutate]⟩ := by
    simp [SimpleWidgetBase.SetStateSafe, h]
  have hplain : s.SetState f st = ⟨none, [Event.mutate]⟩ := by
    simp [SimpleWidgetBase.SetState, h]
  refine ⟨hsafe, ?_, ?_, hplain, ?_⟩ <;>
    simp [hsafe, hplain, List.countP_cons, Event.isRefresh]

/-- C9 witness: an always-panicking mutator on `Nat` state. -/
theorem setState_panic_no_refresh_witness :
    base0.SetStateSafe (fun _ : Nat => none) 0 =
      ⟨none, [Event.lockAcq, Event.mutate]⟩ ∧
    Event.lockRel ∉ (base0.SetStateSafe (fun _ : Nat => none) 0).events ∧
    (base0.SetStateSafe (fun _ : Nat => none) 0).events.countP
      Event.isRefresh = 0 ∧
    base0.SetState (fun _ : Nat => none) 0 = ⟨none, [Event.mutate]⟩ ∧
    (base0.SetState (fun _ : Nat => none) 0).events.countP
      Event.isRefresh = 0 :=
  setState_panic_no_refresh base0 (fun _ : Nat => none) 0 rfl

/-- C10: calling `CreateRenderer` with no delegate registered (dynamic
dispatch on `*SimpleWidgetBase` reaches the default `Render`) returns the
renderer built from the default output: an empty object list and a layout
callback that does nothing for every size. -/
theorem createRenderer_default_empty (s : SimpleWidgetBase)
    (h : s.impl = none) (sz : Size) :
    (s.CreateRenderer).1 =
      some (newSimpleRenderer (Resolved.selfAsserted s.selfId) []
        RenderDefault.2) ∧
    (newSimpleRenderer (Resolved.selfAsserted s.selfId) []
        RenderDefault.2).objects = [] ∧
    (newSimpleRenderer (Resolved.selfAsserted s.selfId) []
        RenderDefault.2).layout sz = [] := by
  have hres : resolve s = Resolved.selfAsserted s.selfId := by
    simp [resolve, h]
  refine ⟨?_, rfl, rfl⟩
  simp [SimpleWidgetBase.CreateRenderer, super_eq_resolve, hres,
    Resolved.render, newSimpleRenderer, RenderDefault]

/-- C10 witness: the fresh base at a concrete size. -/
theorem createRenderer_default_empty_witness :
    (base0.CreateRenderer).1 =
      some (newSimpleRenderer (Resolved.selfAsserted base0.selfId) []
        RenderDefault.2) ∧
    (newSimpleRenderer (Resolved.selfAsserted base0.selfId) []
        RenderDefault.2).objects = [] ∧
    (newSimpleRenderer (Resolved.selfAsserted base0.selfId) []
        RenderDefault.2).layout ⟨5, 7⟩ = [] :=
  createRenderer_default_empty base0 rfl ⟨5, 7⟩

end FyneX
